import Mathlib

/-!
Verification of StackWizard against its natural-language specification.

The definitions below are a shallow embedding of the relevant parts of the
repository:

* the generated backend template's authentication service and API routers
  (templates/common/backend/app/services/auth.py,
   templates/common/backend/app/api/v1/auth.py,
   templates/common/backend/app/api/v1/items.py,
   templates/common/backend/app/api/v1/admin.py,
   templates/common/backend/app/api/v1/validators/common.py,
   templates/common/backend/app/api/v1/validators/user_validators.py);

* the kedro validation harness
  (kedro-pipeline/src/stackwizard_pipeline/pipelines/validation_pipeline.py,
   kedro-pipeline/src/stackwizard_pipeline/nodes/validation.py,
   kedro-pipeline/src/stackwizard_pipeline/nodes/docker_tests.py,
   kedro-pipeline/src/stackwizard_pipeline/nodes/database_init.py).

Python strings are modelled as `List Char` or `String`; machine-level JSON /
process effects are modelled by explicit environment records recording the
outcome of each external call.  Character classification (`isupper`,
`islower`, `isdigit`) is modelled on the ASCII fragment via Lean's `Char`
predicates.
-/

set_option linter.unnecessarySeqFocus false

namespace StackWizard

/-- Embedding of `SecurityService.validate_password_strength`
(templates/common/backend/app/services/auth.py, lines 189-213).  The five
checks append their error messages in source order; the function returns
`(len(errors) == 0, errors)`. -/
def validate_password_strength (password : List Char) : Bool × List String :=
  let errors : List String :=
    (if password.length < 8 then
      ["Password must be at least 8 characters long"] else []) ++
    (if password.length > 128 then
      ["Password must be no more than 128 characters long"] else []) ++
    (if !(password.any Char.isUpper) then
      ["Password must contain at least one uppercase letter"] else []) ++
    (if !(password.any Char.isLower) then
      ["Password must contain at least one lowercase letter"] else []) ++
    (if !(password.any Char.isDigit) then
      ["Password must contain at least one digit"] else [])
  (errors.length == 0, errors)

/-- C7: for every string `p`, `validate_password_strength p` returns a pair
whose first component is `true` iff the error list is empty, which holds
exactly when `8 ≤ len p ≤ 128` and `p` contains an uppercase letter, a
lowercase letter and a digit. -/
theorem C7_password_strength_iff (p : List Char) :
    ((validate_password_strength p).1 = true ↔ (validate_password_strength p).2 = []) ∧
    ((validate_password_strength p).1 = true ↔
      (8 ≤ p.length ∧ p.length ≤ 128 ∧
        p.any Char.isUpper = true ∧ p.any Char.isLower = true ∧
        p.any Char.isDigit = true)) := by
  unfold validate_password_strength
  by_cases h1 : p.length < 8 <;>
    by_cases h2 : p.length > 128 <;>
      by_cases h3 : p.any Char.isUpper <;>
        by_cases h4 : p.any Char.isLower <;>
          by_cases h5 : p.any Char.isDigit <;>
            simp [h1, h2, h3, h4, h5] <;> omega

/-! ### UUID model

The backend stores user ids as UUIDs; tokens carry `str(user.id)` and
`AuthService.verify_token` reconstructs the id with `UUID(user_id)`.  A UUID
value is modelled as a natural number below `16 ^ 32`.  `uuidToString`
embeds CPython's `str(UUID)` (32 lowercase hex digits in 8-4-4-4-12 groups);
`uuidParse` embeds `uuid.UUID(hex=s)`, which normalises the string by
removing dashes and then requires exactly 32 hexadecimal digits (the
`urn:`/brace stripping of the constructor is omitted: it is the identity on
every canonical form considered here). -/

/-- Digit value to lowercase hex character (CPython `%x` formatting), via
code points: 48..57 are the decimal digits, 97..102 are a..f. -/
def hexChar (d : Nat) : Char :=
  Char.ofNat (if d < 10 then 48 + d else if d < 16 then 87 + d else 102)

/-- Hex character to digit value via code points (decimal digits 48..57,
lowercase a..f 97..102, uppercase A..F 65..70); `none` on a non-hex
character (CPython `int(s, 16)` raises `ValueError`). -/
def hexVal (c : Char) : Option Nat :=
  let n := c.toNat
  if 48 ≤ n ∧ n ≤ 57 then some (n - 48)
  else if 97 ≤ n ∧ n ≤ 102 then some (n - 87)
  else if 65 ≤ n ∧ n ≤ 70 then some (n - 55)
  else none

/-- Little-endian hex digits of `u`, padded/truncated to `k` digits. -/
def toHexLE : Nat → Nat → List Char
  | 0, _ => []
  | k + 1, u => hexChar (u % 16) :: toHexLE k (u / 16)

/-- `'%032x' % u`: exactly 32 big-endian lowercase hex digits. -/
def toHex32 (u : Nat) : List Char := (toHexLE 32 u).reverse

/-- Insert the dashes of the canonical 8-4-4-4-12 UUID layout. -/
def insertDashes (l : List Char) : List Char :=
  l.take 8 ++ ['-'] ++ (l.drop 8).take 4 ++ ['-'] ++ (l.drop 12).take 4 ++
    ['-'] ++ (l.drop 16).take 4 ++ ['-'] ++ l.drop 20

/-- `str(UUID(int=u))`. -/
def uuidToString (u : Nat) : String := ⟨insertDashes (toHex32 u)⟩

/-- Accumulating big-endian hex parser (CPython `int(s, 16)` on the
normalised 32-character string). -/
def parseHexAux : Nat → List Char → Option Nat
  | acc, [] => some acc
  | acc, c :: cs =>
    match hexVal c with
    | none => none
    | some v => parseHexAux (acc * 16 + v) cs

/-- `uuid.UUID(hex=s)`: strip dashes, require 32 hex digits, read the value;
`none` models the `ValueError` raised otherwise. -/
def uuidParse (s : String) : Option Nat :=
  let cs := s.toList.filter (fun c => c != '-')
  if cs.length = 32 then parseHexAux 0 cs else none

theorem hexVal_hexChar : ∀ d < 16, hexVal (hexChar d) = some d := by decide

theorem hexChar_ne_dash (d : Nat) : (hexChar d != '-') = true := by
  by_cases h : d < 16
  · revert h
    revert d
    decide
  · have h10 : ¬ d < 10 := by omega
    simp only [hexChar, h10, h, if_false]
    decide

theorem length_toHexLE (k u : Nat) : (toHexLE k u).length = k := by
  induction k generalizing u with
  | zero => rfl
  | succ k ih => simp [toHexLE, ih]

theorem mem_toHexLE {c : Char} {k u : Nat} (h : c ∈ toHexLE k u) :
    ∃ d, c = hexChar d := by
  induction k generalizing u with
  | zero => simp [toHexLE] at h
  | succ k ih =>
    simp only [toHexLE, List.mem_cons] at h
    rcases h with h | h
    · exact ⟨u % 16, h⟩
    · exact ih h

theorem parseHexAux_append (l₁ l₂ : List Char) (acc : Nat) :
    parseHexAux acc (l₁ ++ l₂) =
      (parseHexAux acc l₁).bind (fun a => parseHexAux a l₂) := by
  induction l₁ generalizing acc with
  | nil => rfl
  | cons c cs ih =>
    simp only [List.cons_append, parseHexAux]
    cases hexVal c with
    | none => rfl
    | some v => exact ih _

theorem parse_toHexLE (k : Nat) :
    ∀ u acc, u < 16 ^ k →
      parseHexAux acc ((toHexLE k u).reverse) = some (acc * 16 ^ k + u) := by
  induction k with
  | zero =>
    intro u acc hu
    have : u = 0 := by omega
    simp [toHexLE, parseHexAux, this]
  | succ k ih =>
    intro u acc hu
    have hdiv : u / 16 < 16 ^ k := by
      rw [Nat.div_lt_iff_lt_mul (by norm_num)]
      calc u < 16 ^ (k + 1) := hu
        _ = 16 ^ k * 16 := by rw [pow_succ]
    simp only [toHexLE, List.reverse_cons, parseHexAux_append]
    rw [ih (u / 16) acc hdiv]
    have hmod : u % 16 < 16 := Nat.mod_lt _ (by norm_num)
    simp only [Option.bind_some, parseHexAux, hexVal_hexChar _ hmod]
    show some ((acc * 16 ^ k + u / 16) * 16 + u % 16) = some (acc * 16 ^ (k + 1) + u)
    rw [pow_succ]
    congr 1
    calc (acc * 16 ^ k + u / 16) * 16 + u % 16
        = acc * (16 ^ k * 16) + (16 * (u / 16) + u % 16) := by ring
      _ = acc * (16 ^ k * 16) + u := by rw [Nat.div_add_mod]

theorem filter_dash_insertDashes (l : List Char)
    (h : ∀ c ∈ l, (c != '-') = true) :
    (insertDashes l).filter (fun c => c != '-') = l := by
  have hseg : ∀ s : List Char, (∀ c ∈ s, (c != '-') = true) →
      s.filter (fun c => c != '-') = s := fun s hs => List.filter_eq_self.mpr hs
  have htake : ∀ n, ∀ c ∈ l.take n, (c != '-') = true :=
    fun n c hc => h c (List.mem_of_mem_take hc)
  have hdrop : ∀ n, ∀ c ∈ l.drop n, (c != '-') = true :=
    fun n c hc => h c (List.mem_of_mem_drop hc)
  have htd : ∀ n m, ∀ c ∈ (l.drop n).take m, (c != '-') = true :=
    fun n m c hc => hdrop n c (List.mem_of_mem_take hc)
  simp only [insertDashes, List.filter_append]
  rw [hseg _ (htake 8), hseg _ (htd 8 4), hseg _ (htd 12 4), hseg _ (htd 16 4),
    hseg _ (hdrop 20)]
  have hdashes : List.filter (fun c => c != '-') ['-'] = [] := by decide
  rw [hdashes]
  simp only [List.nil_append, List.append_nil]
  have e1 : (l.drop 16).take 4 ++ l.drop 20 = l.drop 16 := by
    have h20 : l.drop 20 = (l.drop 16).drop 4 := by
      rw [List.drop_drop]
    rw [h20, List.take_append_drop]
  have e2 : (l.drop 12).take 4 ++ l.drop 16 = l.drop 12 := by
    have h16 : l.drop 16 = (l.drop 12).drop 4 := by
      rw [List.drop_drop]
    rw [h16, List.take_append_drop]
  have e3 : (l.drop 8).take 4 ++ l.drop 12 = l.drop 8 := by
    have h12 : l.drop 12 = (l.drop 8).drop 4 := by
      rw [List.drop_drop]
    rw [h12, List.take_append_drop]
  simp only [List.append_assoc]
  rw [e1, e2, e3, List.take_append_drop]

/-- Canonical formatting followed by parsing recovers the UUID value. -/
theorem uuidParse_uuidToString (u : Nat) (hu : u < 16 ^ 32) :
    uuidParse (uuidToString u) = some u := by
  have hnodash : ∀ c ∈ toHex32 u, (c != '-') = true := by
    intro c hc
    rcases mem_toHexLE (List.mem_reverse.mp hc) with ⟨d, rfl⟩
    exact hexChar_ne_dash d
  have hfilter : (uuidToString u).data.filter (fun c => c != '-') = toHex32 u :=
    filter_dash_insertDashes _ hnodash
  have hlen : (toHex32 u).length = 32 := by
    simp [toHex32, length_toHexLE]
  have hparse : parseHexAux 0 (toHex32 u) = some u := by
    have := parse_toHexLE 32 u 0 hu
    simpa [toHex32] using this
  simp [uuidParse, hfilter, hlen, hparse]

/-! ### JWT model

`python-jose` signs a claims dictionary with a secret key.  A token is
modelled as its decoded payload together with the key it was signed with:
`jwt.decode(token, key, ...)` succeeds exactly when the verification key
equals the signing key and the `exp` claim is not in the past, which is
what `Jwt`/`verify_token` capture.  The only claim the template ever places
in `data` is `sub`, so the `data` argument is modelled as the optional
`sub` string.  Timestamps are seconds. -/

/-- Decoded JWT claims: `sub`, `exp`, `scopes`, `type`.  A refresh token
carries no `scopes` key; `payload.get("scopes", [])` makes that
indistinguishable from an empty list, so `scopes := []` models absence. -/
structure JwtPayload where
  sub : Option String
  exp : Nat
  scopes : List String
  typ : String
deriving DecidableEq, Repr

/-- A signed token: payload plus signing key. -/
structure Jwt where
  payload : JwtPayload
  key : String
deriving DecidableEq, Repr

/-- Embedding of `app.schemas.user.TokenData` (user id plus scopes). -/
structure TokenData where
  user_id : Nat
  scopes : List String
deriving DecidableEq, Repr

/-- Embedding of `AuthService.create_access_token`
(templates/common/backend/app/services/auth.py, lines 37-64).
`expiresDelta` is `expires_delta` in seconds; Python truthiness makes a zero
delta fall back to the `ACCESS_TOKEN_EXPIRE_MINUTES` default, as does
`scopes or []` for a missing or empty scope list. -/
def create_access_token (secretKey : String) (accessTokenExpireMinutes : Nat)
    (now : Nat) (sub : Option String) (expiresDelta : Option Nat)
    (scopes : Option (List String)) : Jwt :=
  { payload :=
      { sub := sub
        exp := now +
          (match expiresDelta with
            | some d => if d = 0 then accessTokenExpireMinutes * 60 else d
            | none => accessTokenExpireMinutes * 60)
        scopes := scopes.getD []
        typ := "access" }
    key := secretKey }

/-- Embedding of `AuthService.create_refresh_token`
(templates/common/backend/app/services/auth.py, lines 66-82). -/
def create_refresh_token (secretKey : String) (refreshTokenExpireDays : Nat)
    (now : Nat) (sub : Option String) : Jwt :=
  { payload :=
      { sub := sub
        exp := now + refreshTokenExpireDays * 86400
        scopes := []
        typ := "refresh" }
    key := secretKey }

/-- Embedding of `AuthService.verify_token`
(templates/common/backend/app/services/auth.py, lines 84-107).
`jwt.decode` raises `JWTError` when the key differs or the token is expired
(`exp < now`); a missing `sub` returns `None`; `UUID(user_id)` raising
`ValueError` is caught by the `except (JWTError, ValueError)` clause. -/
def verify_token (secretKey : String) (now : Nat) (token : Jwt) :
    Option TokenData :=
  if token.key ≠ secretKey ∨ token.payload.exp < now then none
  else
    match token.payload.sub with
    | none => none
    | some s =>
      match uuidParse s with
      | none => none
      | some uid => some { user_id := uid, scopes := token.payload.scopes }

/-- C2: verifying a freshly created access token for user id `u` and scope
list `s` (same key, not yet expired) yields `TokenData` with `user_id = u`
and `scopes = s`; and `verify_token` returns `None` on any token lacking a
`sub` claim or not decoding under the configured key. -/
theorem C2_jwt_roundtrip :
    (∀ (key : String) (expireMinutes nowIssue nowCheck u : Nat)
        (s : List String) (delta : Option Nat),
      u < 16 ^ 32 →
      nowCheck ≤ (create_access_token key expireMinutes nowIssue
          (some (uuidToString u)) delta (some s)).payload.exp →
      verify_token key nowCheck
          (create_access_token key expireMinutes nowIssue
            (some (uuidToString u)) delta (some s)) =
        some { user_id := u, scopes := s }) ∧
    (∀ (key : String) (now : Nat) (tok : Jwt),
      tok.payload.sub = none → verify_token key now tok = none) ∧
    (∀ (key : String) (now : Nat) (tok : Jwt),
      tok.key ≠ key → verify_token key now tok = none) := by
  refine ⟨?_, ?_, ?_⟩
  · intro key m n₁ n₂ u s delta hu hexp
    have hnlt : ¬ (create_access_token key m n₁ (some (uuidToString u)) delta
        (some s)).payload.exp < n₂ := Nat.not_lt.mpr hexp
    simp only [create_access_token] at hnlt ⊢
    simp [verify_token, hnlt, uuidParse_uuidToString u hu]
  · intro key now tok hsub
    simp [verify_token, hsub]
  · intro key now tok hkey
    simp [verify_token, hkey]

/-- Witness for C2 at a concrete key, user id 5 and scope list. -/
theorem C2_jwt_roundtrip_witness :
    verify_token "secret" 0
        (create_access_token "secret" 30 0 (some (uuidToString 5)) none
          (some ["read", "write"])) =
      some { user_id := 5, scopes := ["read", "write"] } :=
  C2_jwt_roundtrip.1 "secret" 30 0 0 5 ["read", "write"] none (by norm_num)
    (Nat.zero_le _)

/-! ### Users and the login endpoint -/

/-- The `User` ORM columns that authentication reads
(templates/common/backend/app/models/user.py); `id` is the UUID value. -/
structure PyUser where
  id : Nat
  email : String
  hashedPassword : String
  isActive : Bool
  isSuperuser : Bool
deriving DecidableEq, Repr

/-- Embedding of `AuthService.get_user_by_email`:
`select(User).where(User.email == email)` with `scalar_one_or_none`.
`User.email` carries a UNIQUE constraint, so the first matching row models
the unique result. -/
def get_user_by_email (db : List PyUser) (email : String) : Option PyUser :=
  db.find? (fun u => u.email == email)

/-- Embedding of `AuthService.authenticate_user`
(templates/common/backend/app/services/auth.py, lines 161-176); `verify`
abstracts `pwd_context.verify` (bcrypt). -/
def authenticate_user (verify : String → String → Bool) (db : List PyUser)
    (email password : String) : Option PyUser :=
  match get_user_by_email db email with
  | none => none
  | some user =>
    if !(verify password user.hashedPassword) then none
    else if !user.isActive then none
    else some user

/-- The settings the login flow reads
(templates/common/backend/app/core/config.py). -/
structure Settings where
  SECRET_KEY : String
  ACCESS_TOKEN_EXPIRE_MINUTES : Nat
  REFRESH_TOKEN_EXPIRE_DAYS : Nat
deriving DecidableEq, Repr

/-- The response body of POST /auth/login (`TokenWithUser`): both tokens,
the token type, `expires_in`, and the serialised user. -/
structure TokenWithUser where
  access_token : Jwt
  token_type : String
  expires_in : Nat
  refresh_token : Jwt
  userId : Nat
  userEmail : String
  userIsSuperuser : Bool
  userIsActive : Bool
deriving DecidableEq, Repr

/-- Outcome of a request handler: a response or an `HTTPException`. -/
inductive LoginResult
  | ok (resp : TokenWithUser)
  | httpError (statusCode : Nat) (detail : String)
deriving DecidableEq, Repr

/-- Embedding of the POST /auth/login handler
(templates/common/backend/app/api/v1/auth.py, lines 22-78): authenticate,
401 on failure; otherwise issue an access token with scopes
`["read", "write"]` plus `"admin"` for superusers (expiry
`ACCESS_TOKEN_EXPIRE_MINUTES`) and a refresh token.  The `update_last_login`
side effect touches no field the response reads and is not modelled. -/
def login (st : Settings) (verify : String → String → Bool) (db : List PyUser)
    (now : Nat) (username password : String) : LoginResult :=
  match authenticate_user verify db username password with
  | none => .httpError 401 "Incorrect email or password"
  | some user =>
    let scopes := ["read", "write"] ++ (if user.isSuperuser then ["admin"] else [])
    .ok
      { access_token :=
          create_access_token st.SECRET_KEY st.ACCESS_TOKEN_EXPIRE_MINUTES now
            (some (uuidToString user.id)) (some (st.ACCESS_TOKEN_EXPIRE_MINUTES * 60))
            (some scopes)
        token_type := "bearer"
        expires_in := st.ACCESS_TOKEN_EXPIRE_MINUTES * 60
        refresh_token :=
          create_refresh_token st.SECRET_KEY st.REFRESH_TOKEN_EXPIRE_DAYS now
            (some (uuidToString user.id))
        userId := user.id
        userEmail := user.email
        userIsSuperuser := user.isSuperuser
        userIsActive := user.isActive }

theorem authenticate_user_some_iff (verify : String → String → Bool)
    (db : List PyUser) (email pw : String) (u : PyUser) :
    authenticate_user verify db email pw = some u ↔
      (get_user_by_email db email = some u ∧
        verify pw u.hashedPassword = true ∧ u.isActive = true) := by
  unfold authenticate_user
  cases hfind : get_user_by_email db email with
  | none => simp
  | some v =>
    constructor
    · intro h
      by_cases hv : verify pw v.hashedPassword
      · by_cases ha : v.isActive
        · simp only [hv, ha, Bool.not_true, Bool.false_eq_true, if_false] at h
          injection h with h
          subst h
          exact ⟨rfl, hv, ha⟩
        · rw [Bool.not_eq_true] at ha
          simp [hv, ha] at h
      · rw [Bool.not_eq_true] at hv
        simp [hv] at h
    · rintro ⟨hvu, h1, h2⟩
      injection hvu with hvu
      subst hvu
      simp [h1, h2]

/-- C1: POST /auth/login returns the token response iff a user with the
given email exists, the password verifies against the stored hash and the
user is active; in every other case it fails with HTTP 401 and detail
"Incorrect email or password". -/
theorem C1_login_success_iff (st : Settings) (verify : String → String → Bool)
    (db : List PyUser) (now : Nat) (email pw : String) :
    ((∃ r, login st verify db now email pw = LoginResult.ok r) ↔
      (∃ u, get_user_by_email db email = some u ∧
        verify pw u.hashedPassword = true ∧ u.isActive = true)) ∧
    ((¬ ∃ u, get_user_by_email db email = some u ∧
        verify pw u.hashedPassword = true ∧ u.isActive = true) →
      login st verify db now email pw =
        LoginResult.httpError 401 "Incorrect email or password") := by
  constructor
  · constructor
    · rintro ⟨r, hr⟩
      unfold login at hr
      cases hauth : authenticate_user verify db email pw with
      | none =>
        rw [hauth] at hr
        cases hr
      | some u =>
        exact ⟨u, (authenticate_user_some_iff verify db email pw u).mp hauth⟩
    · rintro ⟨u, hu⟩
      have hauth := (authenticate_user_some_iff verify db email pw u).mpr hu
      unfold login
      rw [hauth]
      exact ⟨_, rfl⟩
  · intro hno
    unfold login
    cases hauth : authenticate_user verify db email pw with
    | none => rfl
    | some u =>
      exact absurd ⟨u, (authenticate_user_some_iff verify db email pw u).mp hauth⟩ hno

/-- Concrete database for the login witnesses. -/
def loginDemoDb : List PyUser :=
  [{ id := 1, email := "user@example.com", hashedPassword := "hash1",
     isActive := true, isSuperuser := false }]

/-- Concrete settings for the login witnesses. -/
def loginDemoSettings : Settings :=
  { SECRET_KEY := "k", ACCESS_TOKEN_EXPIRE_MINUTES := 30,
    REFRESH_TOKEN_EXPIRE_DAYS := 7 }

/-- Concrete password check for the login witnesses. -/
def loginDemoVerify : String → String → Bool :=
  fun pw h => (pw == "pw1") && (h == "hash1")

/-- Witness for C1: the demo user logs in successfully. -/
theorem C1_login_success_iff_witness :
    ∃ r, login loginDemoSettings loginDemoVerify loginDemoDb 0
        "user@example.com" "pw1" = LoginResult.ok r :=
  (C1_login_success_iff loginDemoSettings loginDemoVerify loginDemoDb 0
      "user@example.com" "pw1").1.mpr
    ⟨{ id := 1, email := "user@example.com", hashedPassword := "hash1",
       isActive := true, isSuperuser := false }, by decide⟩

/-- C9: on every successful login the access token scopes contain
`"admin"` iff the authenticated user is a superuser, always contain
`"read"` and `"write"`, and `expires_in = ACCESS_TOKEN_EXPIRE_MINUTES * 60`. -/
theorem C9_login_scopes (st : Settings) (verify : String → String → Bool)
    (db : List PyUser) (now : Nat) (email pw : String) (r : TokenWithUser)
    (hr : login st verify db now email pw = LoginResult.ok r) :
    ∃ u, get_user_by_email db email = some u ∧
      (("admin" ∈ r.access_token.payload.scopes) ↔ u.isSuperuser = true) ∧
      "read" ∈ r.access_token.payload.scopes ∧
      "write" ∈ r.access_token.payload.scopes ∧
      r.expires_in = st.ACCESS_TOKEN_EXPIRE_MINUTES * 60 := by
  unfold login at hr
  cases hauth : authenticate_user verify db email pw with
  | none =>
    rw [hauth] at hr
    cases hr
  | some u =>
    rw [hauth] at hr
    refine ⟨u, ((authenticate_user_some_iff verify db email pw u).mp hauth).1, ?_⟩
    cases hr
    by_cases hsu : u.isSuperuser
    · refine ⟨?_, ?_, ?_, rfl⟩ <;> simp [create_access_token, hsu]
    · simp only [Bool.not_eq_true] at hsu
      refine ⟨?_, ?_, ?_, rfl⟩ <;> simp [create_access_token, hsu]

/-- The concrete response the demo login produces. -/
def loginDemoResponse : TokenWithUser :=
  { access_token :=
      { payload :=
          { sub := some "00000000-0000-0000-0000-000000000001"
            exp := 1800
            scopes := ["read", "write"]
            typ := "access" }
        key := "k" }
    token_type := "bearer"
    expires_in := 1800
    refresh_token :=
      { payload :=
          { sub := some "00000000-0000-0000-0000-000000000001"
            exp := 604800
            scopes := []
            typ := "refresh" }
        key := "k" }
    userId := 1
    userEmail := "user@example.com"
    userIsSuperuser := false
    userIsActive := true }

/-- Witness for C9 at the concrete demo login. -/
theorem C9_login_scopes_witness :
    ∃ u, get_user_by_email loginDemoDb "user@example.com" = some u ∧
      (("admin" ∈ loginDemoResponse.access_token.payload.scopes) ↔
        u.isSuperuser = true) ∧
      "read" ∈ loginDemoResponse.access_token.payload.scopes ∧
      "write" ∈ loginDemoResponse.access_token.payload.scopes ∧
      loginDemoResponse.expires_in =
        loginDemoSettings.ACCESS_TOKEN_EXPIRE_MINUTES * 60 :=
  C9_login_scopes loginDemoSettings loginDemoVerify loginDemoDb 0
    "user@example.com" "pw1" loginDemoResponse (by decide)

/-! ### Request validators -/

/-- An `HTTPException`: status code and detail message. -/
structure HTTPError where
  statusCode : Nat
  detail : String
deriving DecidableEq, Repr

/-- Embedding of `validate_uuid`
(templates/common/backend/app/api/v1/validators/common.py, lines 11-31):
parse the string as a UUID, or raise HTTP 400. -/
def validate_uuid (value : String) (fieldName : String) : Except HTTPError Nat :=
  match uuidParse value with
  | some u => Except.ok u
  | none =>
    Except.error
      { statusCode := 400
        detail := "Invalid " ++ fieldName ++ ": \x27" ++ value ++
          "\x27 is not a valid UUID" }

/-- The bulk-operation whitelist
(templates/common/backend/app/api/v1/validators/user_validators.py,
lines 253-256). -/
def allowed_operations : List String :=
  ["activate", "deactivate", "delete", "verify", "reset_password",
   "send_notification"]

/-- The `validated_ids` accumulation loop of `validate_bulk_operation`
(user_validators.py, lines 238-244): each id is run through
`validate_uuid`; an id raising `HTTPException` is logged and skipped, a
valid one contributes `str(UUID(id))`, its canonical form. -/
def bulkValidatedIds (user_ids : List String) : List String :=
  user_ids.filterMap (fun s =>
    match validate_uuid s "User ID" with
    | Except.ok u => some (uuidToString u)
    | Except.error _ => none)

/-- Embedding of `validate_bulk_operation`
(templates/common/backend/app/api/v1/validators/user_validators.py,
lines 205-263). -/
def validate_bulk_operation (user_ids : List String) (operation : String)
    (max_users : Nat := 100) : Except HTTPError (List String) :=
  if user_ids.isEmpty then
    Except.error
      { statusCode := 400, detail := "No users specified for bulk operation" }
  else if user_ids.length > max_users then
    Except.error
      { statusCode := 400
        detail := "Bulk operation limited to " ++ toString max_users ++ " users" }
  else if (bulkValidatedIds user_ids).isEmpty then
    Except.error { statusCode := 400, detail := "No valid user IDs provided" }
  else if !(allowed_operations.contains operation) then
    Except.error
      { statusCode := 400
        detail := "Invalid operation. Allowed: " ++
          String.intercalate ", " allowed_operations }
  else Except.ok (bulkValidatedIds user_ids)

/-- C8: `validate_bulk_operation` either returns a non-empty list of
validated (canonicalised) UUID strings — skipping malformed entries — or
fails with an HTTP 400 error; no other outcome is possible. -/
theorem C8_bulk_validation_total (user_ids : List String) (operation : String)
    (max_users : Nat) :
    (∃ l, validate_bulk_operation user_ids operation max_users = Except.ok l ∧
        l ≠ [] ∧
        l = user_ids.filterMap (fun s => (uuidParse s).map uuidToString)) ∨
    (∃ d, validate_bulk_operation user_ids operation max_users =
        Except.error { statusCode := 400, detail := d }) := by
  have hids : bulkValidatedIds user_ids =
      user_ids.filterMap (fun s => (uuidParse s).map uuidToString) := by
    unfold bulkValidatedIds
    congr 1
    funext s
    unfold validate_uuid
    cases uuidParse s <;> rfl
  unfold validate_bulk_operation
  split_ifs with h1 h2 h3 h4
  · exact Or.inr ⟨_, rfl⟩
  · exact Or.inr ⟨_, rfl⟩
  · exact Or.inr ⟨_, rfl⟩
  · exact Or.inr ⟨_, rfl⟩
  · refine Or.inl ⟨_, rfl, ?_, hids⟩
    intro hnil
    rw [← List.isEmpty_iff] at hnil
    exact h3 hnil

/-! ### The kedro validation report -/

/-- One result-dictionary entry as `generate_validation_report` reads it:
the truthiness of its `success` value and its `missing_dependencies` list
(absent models the empty list, which is falsy). -/
structure NodeResult where
  success : Bool
  missingDependencies : List String := []
deriving DecidableEq, Repr

/-- A results dictionary: test name to result. -/
abbrev ResultDict := List (String × NodeResult)

/-- The `summary` block of the report. -/
structure ReportSummary where
  total_tests : Nat
  passed : Nat
  failed : Nat
deriving DecidableEq, Repr

/-- The report fields the claims read. -/
structure ValidationReport where
  summary : ReportSummary
  recommendations : List String
  success : Bool
deriving DecidableEq, Repr

/-- The counting loop of `generate_validation_report` over one category
(kedro-pipeline/src/stackwizard_pipeline/nodes/validation.py,
lines 344-350). -/
def tallyCategory (init : ReportSummary) (cat : ResultDict) : ReportSummary :=
  cat.foldl
    (fun acc kr =>
      { total_tests := acc.total_tests + 1
        passed := if kr.2.success then acc.passed + 1 else acc.passed
        failed := if kr.2.success then acc.failed else acc.failed + 1 })
    init

/-- Embedding of `generate_validation_report`
(kedro-pipeline/src/stackwizard_pipeline/nodes/validation.py,
lines 323-365): count all entries of the three inputs, add the
recommendations when something failed, set `success := failed == 0`. -/
def generate_validation_report
    (docker_results container_results test_results : ResultDict) :
    ValidationReport :=
  let summary :=
    tallyCategory
      (tallyCategory (tallyCategory ⟨0, 0, 0⟩ docker_results) container_results)
      test_results
  let recommendations :=
    if summary.failed > 0 then
      "Fix failing tests before release" ::
        docker_results.filterMap (fun kr =>
          if !kr.2.missingDependencies.isEmpty then
            some ("Install missing dependencies for " ++ kr.1 ++ ": " ++
              String.intercalate ", " kr.2.missingDependencies)
          else none)
    else []
  { summary := summary
    recommendations := recommendations
    success := summary.failed == 0 }

theorem tallyCategory_spec (cat : ResultDict) :
    ∀ init : ReportSummary,
      (tallyCategory init cat).total_tests = init.total_tests + cat.length ∧
      (tallyCategory init cat).passed =
        init.passed + cat.countP (fun kr => kr.2.success) ∧
      (tallyCategory init cat).failed =
        init.failed + cat.countP (fun kr => !kr.2.success) := by
  induction cat with
  | nil => intro init; simp [tallyCategory]
  | cons kr rest ih =>
    intro init
    by_cases hs : kr.2.success
    · have h := ih
        { total_tests := init.total_tests + 1
          passed := init.passed + 1
          failed := init.failed }
      simp only [tallyCategory, List.foldl_cons, hs, if_true, List.countP_cons,
        List.length_cons, Bool.not_true] at h ⊢
      refine ⟨?_, ?_, ?_⟩ <;> simp [h.1, h.2.1, h.2.2] <;> omega
    · rw [Bool.not_eq_true] at hs
      have h := ih
        { total_tests := init.total_tests + 1
          passed := init.passed
          failed := init.failed + 1 }
      simp only [tallyCategory, List.foldl_cons, hs, if_false, List.countP_cons,
        List.length_cons, Bool.not_false] at h ⊢
      refine ⟨?_, ?_, ?_⟩ <;> simp [h.1, h.2.1, h.2.2] <;> omega

/-- C5: the report counts every entry of the three inputs, the total equals
passed plus failed, the `success` flag holds iff nothing failed (iff every
entry succeeded), and the "Fix failing tests before release" recommendation
is present iff some entry failed. -/
theorem C5_report_invariants
    (docker_results container_results test_results : ResultDict) :
    ((generate_validation_report docker_results container_results
        test_results).summary.total_tests =
      docker_results.length + container_results.length + test_results.length) ∧
    ((generate_validation_report docker_results container_results
        test_results).summary.total_tests =
      (generate_validation_report docker_results container_results
        test_results).summary.passed +
      (generate_validation_report docker_results container_results
        test_results).summary.failed) ∧
    ((generate_validation_report docker_results container_results
        test_results).success = true ↔
      (generate_validation_report docker_results container_results
        test_results).summary.failed = 0) ∧
    ((generate_validation_report docker_results container_results
        test_results).success = true ↔
      ∀ e ∈ docker_results ++ container_results ++ test_results,
        e.2.success = true) ∧
    ("Fix failing tests before release" ∈
        (generate_validation_report docker_results container_results
          test_results).recommendations ↔
      ∃ e ∈ docker_results ++ container_results ++ test_results,
        e.2.success = false) := by
  obtain ⟨d1, d2, d3⟩ := tallyCategory_spec docker_results ⟨0, 0, 0⟩
  obtain ⟨c1, c2, c3⟩ :=
    tallyCategory_spec container_results (tallyCategory ⟨0, 0, 0⟩ docker_results)
  obtain ⟨t1, t2, t3⟩ :=
    tallyCategory_spec test_results
      (tallyCategory (tallyCategory ⟨0, 0, 0⟩ docker_results) container_results)
  simp only [generate_validation_report]
  have hfail : (tallyCategory (tallyCategory (tallyCategory ⟨0, 0, 0⟩
      docker_results) container_results) test_results).failed =
      (docker_results ++ container_results ++ test_results).countP
        (fun kr => !kr.2.success) := by
    rw [t3, c3, d3]
    simp [List.countP_append]
    omega
  have hzero : ((docker_results ++ container_results ++ test_results).countP
      (fun kr => !kr.2.success) = 0) ↔
      ∀ e ∈ docker_results ++ container_results ++ test_results,
        e.2.success = true := by
    rw [List.countP_eq_zero]
    constructor
    · intro h e he
      have := h e he
      simpa using this
    · intro h e he
      simp [h e he]
  have hpos : (0 < (docker_results ++ container_results ++ test_results).countP
      (fun kr => !kr.2.success)) ↔
      ∃ e ∈ docker_results ++ container_results ++ test_results,
        e.2.success = false := by
    rw [List.countP_pos_iff]
    constructor
    · rintro ⟨e, he, hp⟩
      exact ⟨e, he, by simpa using hp⟩
    · rintro ⟨e, he, hp⟩
      exact ⟨e, he, by simp [hp]⟩
  refine ⟨?_, ?_, ?_, ?_, ?_⟩
  · rw [t1, c1, d1]
    simp
  · rw [t1, c1, d1, t2, c2, d2, t3, c3, d3]
    have hsum : ∀ l : ResultDict,
        l.countP (fun kr => kr.2.success) +
          l.countP (fun kr => !kr.2.success) = l.length := by
      intro l
      induction l with
      | nil => simp
      | cons x xs ihl =>
        simp only [List.countP_cons, List.length_cons]
        by_cases hx : x.2.success <;> simp [hx] <;> omega
    have e1 := hsum docker_results
    have e2 := hsum container_results
    have e3 := hsum test_results
    simp only [ReportSummary.total_tests, ReportSummary.passed,
      ReportSummary.failed]
    omega
  · rw [hfail]
    simp [Nat.beq_eq_true_eq]
  · rw [hfail, ← hzero]
    simp [Nat.beq_eq_true_eq]
  · rw [hfail]
    by_cases hf : 0 < (docker_results ++ container_results ++
        test_results).countP (fun kr => !kr.2.success)
    · rw [if_pos hf]
      exact iff_of_true (List.mem_cons_self _ _) (hpos.mp hf)
    · rw [if_neg hf]
      exact iff_of_false (List.not_mem_nil _) (fun hex => hf (hpos.mpr hex))

/-! ### The docker compose startup test -/

/-- Outcome of one `subprocess.run` call: normal completion with an exit
code, `subprocess.TimeoutExpired`, or another raised exception. -/
inductive SubprocessOutcome
  | completed (exitCode : Int)
  | timeoutExpired
  | raised (msg : String)
deriving DecidableEq, Repr

/-- Environment of one execution of `test_docker_compose_up`: the
project-generation result it receives and the behaviour of each external
call it makes.  `psServices` is the list of (Service, State) pairs the code
manages to parse from the `docker compose ps --format json` output (empty
when the output is empty or unparseable); `logsStdout = none` models empty
(falsy) log output. -/
structure ComposeEnv where
  projectSuccess : Bool
  upOutcome : SubprocessOutcome
  upStderrTail : String
  psOutcome : SubprocessOutcome
  psServices : List (String × String)
  logsOutcome : SubprocessOutcome
  logsStdout : Option String
deriving DecidableEq, Repr

/-- The fields of the `test_docker_compose_up` result dictionary. -/
structure ComposeTestResults where
  success : Bool
  errors : List String
  warnings : List String
  servicesStatus : List (String × String)
deriving DecidableEq, Repr

/-- The log error patterns scanned
(kedro-pipeline/src/stackwizard_pipeline/nodes/docker_tests.py,
lines 335-341). -/
def composeLogPatterns : List String :=
  ["Module not found", "Can\x27t resolve", "Failed to compile",
   "Connection refused", "ECONNREFUSED"]

/-- `pat in hay` for strings, via `splitOn`. -/
def occursIn (hay pat : String) : Bool := (hay.splitOn pat).length != 1

/-- Embedding of `test_docker_compose_up`
(kedro-pipeline/src/stackwizard_pipeline/nodes/docker_tests.py,
lines 249-365).  The second component records whether the
`docker compose down -v` teardown in the `finally` block was attempted: the
early return for a failed project generation happens before the
`try`/`finally`, every other path runs the `finally`. -/
def test_docker_compose_up (env : ComposeEnv) : ComposeTestResults × Bool :=
  if !env.projectSuccess then
    ({ success := false, errors := ["Project generation failed"],
       warnings := [], servicesStatus := [] }, false)
  else
    match env.upOutcome with
    | SubprocessOutcome.timeoutExpired =>
      ({ success := false, errors := ["docker-compose operations timed out"],
         warnings := [], servicesStatus := [] }, true)
    | SubprocessOutcome.raised msg =>
      ({ success := false,
         errors := ["Error testing docker-compose: " ++ msg],
         warnings := [], servicesStatus := [] }, true)
    | SubprocessOutcome.completed upCode =>
      if upCode ≠ 0 then
        ({ success := false,
           errors := ["docker-compose up failed: " ++ env.upStderrTail],
           warnings := [], servicesStatus := [] }, true)
      else
        match env.psOutcome with
        | SubprocessOutcome.timeoutExpired =>
          ({ success := false,
             errors := ["docker-compose operations timed out"],
             warnings := [], servicesStatus := [] }, true)
        | SubprocessOutcome.raised msg =>
          ({ success := false,
             errors := ["Error testing docker-compose: " ++ msg],
             warnings := [], servicesStatus := [] }, true)
        | SubprocessOutcome.completed psCode =>
          let stat := if psCode = 0 then env.psServices else []
          let notRunning := stat.filter (fun sv => sv.2 != "running")
          let errs := notRunning.map
            (fun sv => "Service " ++ sv.1 ++ " is not running: " ++ sv.2)
          match env.logsOutcome with
          | SubprocessOutcome.timeoutExpired =>
            ({ success := false,
               errors := errs ++ ["docker-compose operations timed out"],
               warnings := [], servicesStatus := stat }, true)
          | SubprocessOutcome.raised msg =>
            ({ success := false,
               errors := errs ++ ["Error testing docker-compose: " ++ msg],
               warnings := [], servicesStatus := stat }, true)
          | SubprocessOutcome.completed _ =>
            let warns :=
              match env.logsStdout with
              | none => []
              | some logs => composeLogPatterns.filterMap (fun p =>
                  if occursIn logs p then
                    some ("Error pattern found in logs: " ++ p)
                  else none)
            ({ success := notRunning.isEmpty, errors := errs,
               warnings := warns, servicesStatus := stat }, true)

/-- C6 (amended): the compose test reports success only when
`docker compose up -d` exited 0 and every parsed service is `running`; and
teardown via `docker compose down -v` is attempted on every path that
enters the test body (the early return for a failed project generation
precedes the `try`/`finally` and does not tear down). -/
theorem C6_compose_up_success_and_teardown (env : ComposeEnv) :
    ((test_docker_compose_up env).1.success = true →
      env.projectSuccess = true ∧
      env.upOutcome = SubprocessOutcome.completed 0 ∧
      ∀ sv ∈ (test_docker_compose_up env).1.servicesStatus,
        sv.2 = "running") ∧
    (env.projectSuccess = true → (test_docker_compose_up env).2 = true) := by
  unfold test_docker_compose_up
  by_cases hp : env.projectSuccess
  · simp only [hp, Bool.not_true, Bool.false_eq_true, if_false]
    cases hup : env.upOutcome with
    | timeoutExpired => simp
    | raised msg => simp
    | completed upCode =>
      by_cases hc : upCode ≠ 0
      · simp [hc]
      · push_neg at hc
        subst hc
        simp only [ne_eq, not_true_eq_false, if_false, if_neg]
        cases hps : env.psOutcome with
        | timeoutExpired => simp
        | raised msg => simp
        | completed psCode =>
          cases hlogs : env.logsOutcome with
          | timeoutExpired => simp
          | raised msg => simp
          | completed c =>
            simp only [and_true, implies_true, true_and]
            intro hsucc sv hsv
            rw [List.isEmpty_iff, List.filter_eq_nil_iff] at hsucc
            have := hsucc sv hsv
            simpa using this
  · simp only [Bool.not_eq_true] at hp
    simp [hp]

/-- A run whose `project_info` input already reports failure. -/
def composeGenFailedEnv : ComposeEnv :=
  { projectSuccess := false
    upOutcome := SubprocessOutcome.completed 0
    upStderrTail := ""
    psOutcome := SubprocessOutcome.completed 0
    psServices := []
    logsOutcome := SubprocessOutcome.completed 0
    logsStdout := none }

/-- C6 counterexample: when the received project generation result is a
failure, `test_docker_compose_up` returns without attempting
`docker compose down -v`, so teardown is not attempted on every execution
path of the test. -/
theorem C6_compose_up_counterexample :
    (test_docker_compose_up composeGenFailedEnv).2 = false := rfl

/-- A fully successful run for the C6 witness. -/
def composeOkEnv : ComposeEnv :=
  { projectSuccess := true
    upOutcome := SubprocessOutcome.completed 0
    upStderrTail := ""
    psOutcome := SubprocessOutcome.completed 0
    psServices := [("backend", "running"), ("frontend", "running"),
      ("postgres", "running")]
    logsOutcome := SubprocessOutcome.completed 0
    logsStdout := none }

/-- Witness for C6: on a successful run the teardown is attempted. -/
theorem C6_compose_up_witness :
    (test_docker_compose_up composeOkEnv).2 = true :=
  (C6_compose_up_success_and_teardown composeOkEnv).2 rfl

/-! ### The validation pipeline graph and its subprocess commands -/

/-- One kedro `node(...)` declaration: node name, consumed datasets or
parameters, produced datasets. -/
structure PipelineNode where
  name : String
  inputs : List String
  outputs : List String
deriving DecidableEq, Repr

/-- Embedding of `create_validation_pipeline`
(kedro-pipeline/src/stackwizard_pipeline/pipelines/validation_pipeline.py,
lines 15-64): the six declared nodes with their inputs and outputs. -/
def create_validation_pipeline : List PipelineNode :=
  [⟨"generate_test_project",
      ["params:generation", "params:test", "params:validation"],
      ["project_info"]⟩,
   ⟨"validate_docker_builds",
      ["project_info", "params:generation", "params:test", "params:validation"],
      ["docker_build_results"]⟩,
   ⟨"test_docker_containers",
      ["docker_build_results", "params:generation", "params:test",
        "params:validation"],
      ["container_test_results"]⟩,
   ⟨"run_unit_tests", ["project_info"], ["unit_test_results"]⟩,
   ⟨"generate_report",
      ["docker_build_results", "container_test_results", "unit_test_results"],
      ["validation_report"]⟩,
   ⟨"cleanup_artifacts", ["project_info"], ["cleanup_results"]⟩]

/-- `a` data-depends on `b`: some output of `b` is an input of `a`.  This is
the dependency relation the kedro runner schedules by. -/
def dependsOn (a b : PipelineNode) : Bool :=
  b.outputs.any (fun o => a.inputs.contains o)

/-- The data-dependency edges of the validation pipeline, as pairs
(consumer, producer). -/
def validationDependencyEdges : List (String × String) :=
  [("validate_docker_builds", "generate_test_project"),
   ("test_docker_containers", "validate_docker_builds"),
   ("run_unit_tests", "generate_test_project"),
   ("generate_report", "validate_docker_builds"),
   ("generate_report", "test_docker_containers"),
   ("generate_report", "run_unit_tests"),
   ("cleanup_artifacts", "generate_test_project")]

/-- Runtime data the node functions interpolate into their `subprocess.run`
argument vectors: the temp directory, the configured UI libraries and
frontend port, which project subdirectories exist, and the containers and
images found by the cleanup queries. -/
structure ValidationCmdEnv where
  testDir : String
  uiTypes : List String
  frontendPort : String
  backendExists : Bool
  frontendExists : Bool
  containers : List String
  images : List String
deriving DecidableEq, Repr

/-- `generate_project` (validation.py, lines 54-61): it invokes the written
expect script, which drives the Node generator. -/
def generate_project_commands (e : ValidationCmdEnv) : List (List String) :=
  [[e.testDir ++ "/generate.exp"]]

/-- `validate_docker_build` (validation.py, lines 106-112): one
`docker build` per configured UI library. -/
def validate_docker_build_commands (e : ValidationCmdEnv) :
    List (List String) :=
  e.uiTypes.map (fun ui => ["docker", "build", "-t", "kedro-test-" ++ ui, "."])

/-- `run_container_tests` (validation.py, lines 153-201): per UI library,
stop/remove any stale container, run the image, fetch logs, stop and remove
again. -/
def run_container_tests_commands (e : ValidationCmdEnv) :
    List (List String) :=
  (e.uiTypes.map (fun ui =>
    [["docker", "stop", "kedro-test-container-" ++ ui],
     ["docker", "rm", "kedro-test-container-" ++ ui],
     ["docker", "run", "-d", "--name", "kedro-test-container-" ++ ui,
      "-p", e.frontendPort ++ ":3000", "kedro-test-" ++ ui],
     ["docker", "logs", "kedro-test-container-" ++ ui],
     ["docker", "stop", "kedro-test-container-" ++ ui],
     ["docker", "rm", "kedro-test-container-" ++ ui]])).flatten

/-- `run_unit_tests` (validation.py, lines 228-262): pytest for the backend
directory, `npm test` for the frontend directory, when they exist. -/
def run_unit_tests_commands (e : ValidationCmdEnv) : List (List String) :=
  (if e.backendExists then [["python", "-m", "pytest", "-v"]] else []) ++
  (if e.frontendExists then
    [["npm", "test", "--", "--watchAll=false"]] else [])

/-- `generate_validation_report` runs no subprocess. -/
def generate_report_commands : List (List String) := []

/-- `cleanup_test_artifacts` (validation.py, lines 289-315): list and
force-remove test containers and images. -/
def cleanup_commands (e : ValidationCmdEnv) : List (List String) :=
  [["docker", "ps", "-a", "--filter", "name=kedro-test", "--format",
    "\x7b\x7b.Names\x7d\x7d"]] ++
  e.containers.map (fun c => ["docker", "rm", "-f", c]) ++
  [["docker", "images", "--filter", "reference=kedro-test-*", "--format",
    "\x7b\x7b.Repository\x7d\x7d:\x7b\x7b.Tag\x7d\x7d"]] ++
  e.images.map (fun i => ["docker", "rmi", "-f", i])

/-- All subprocess argument vectors a full run of the validation pipeline
can issue. -/
def validation_pipeline_commands (e : ValidationCmdEnv) :
    List (List String) :=
  generate_project_commands e ++ validate_docker_build_commands e ++
    run_container_tests_commands e ++ run_unit_tests_commands e ++
    generate_report_commands ++ cleanup_commands e

/-- The kinds of external command the spec sentence names. -/
inductive CmdKind
  | dockerBuild
  | dockerCompose
  | pytestRun
  | npmTest
  | generatorInvocation
  | dockerLifecycle
  | other
deriving DecidableEq, Repr

/-- Container-lifecycle docker verbs (run/logs and cleanup calls). -/
def lifecycleVerbs : List String :=
  ["run", "stop", "rm", "logs", "ps", "images", "rmi"]

/-- Classify an argument vector. -/
def cmdKind (e : ValidationCmdEnv) (c : List String) : CmdKind :=
  if c = [e.testDir ++ "/generate.exp"] then CmdKind.generatorInvocation
  else if c.take 2 = ["docker", "build"] then CmdKind.dockerBuild
  else if c.take 2 = ["docker", "compose"] then CmdKind.dockerCompose
  else if c.take 3 = ["python", "-m", "pytest"] then CmdKind.pytestRun
  else if c.take 2 = ["npm", "test"] then CmdKind.npmTest
  else if c.take 1 = ["docker"] ∧
      lifecycleVerbs.contains ((c.drop 1).headD "") then
    CmdKind.dockerLifecycle
  else CmdKind.other

/-- The command kinds a validation-pipeline run actually uses. -/
def validationUsedKinds : List CmdKind :=
  [CmdKind.generatorInvocation, CmdKind.dockerBuild, CmdKind.pytestRun,
   CmdKind.npmTest, CmdKind.dockerLifecycle]

/-- The command kinds the claim lists ("docker build, docker compose up,
pytest, and npm test, plus the generator invocation and docker
run/logs/cleanup calls"). -/
def claimedCommandKinds : List CmdKind :=
  [CmdKind.dockerBuild, CmdKind.dockerCompose, CmdKind.pytestRun,
   CmdKind.npmTest, CmdKind.generatorInvocation, CmdKind.dockerLifecycle]

/-- A representative full run: every UI library branch, both unit-test
branches and non-empty cleanup queries. -/
def validationDemoEnv : ValidationCmdEnv :=
  { testDir := "/tmp/kedro-test-abc123"
    uiTypes := ["mui", "bootstrap"]
    frontendPort := "3000"
    backendExists := true
    frontendExists := true
    containers := ["kedro-test-container-mui"]
    images := ["kedro-test-mui:latest"] }

/-- C3 (amended): the validation pipeline consists of exactly the six
advertised steps, its data-dependency relation is exactly the edges of
`validationDependencyEdges` (cleanup depends only on project generation),
every subprocess command any run can issue is of one of the kinds
docker build, pytest, npm test, the generator invocation, or a docker
container-lifecycle call, and on a representative full run each of those
kinds occurs. -/
theorem C3_validation_pipeline_steps :
    (create_validation_pipeline.map PipelineNode.name =
      ["generate_test_project", "validate_docker_builds",
       "test_docker_containers", "run_unit_tests", "generate_report",
       "cleanup_artifacts"]) ∧
    (∀ a ∈ create_validation_pipeline, ∀ b ∈ create_validation_pipeline,
      (dependsOn a b = true ↔ (a.name, b.name) ∈ validationDependencyEdges)) ∧
    (∀ e : ValidationCmdEnv, ∀ c ∈ validation_pipeline_commands e,
      cmdKind e c ∈ validationUsedKinds) ∧
    (∀ k ∈ validationUsedKinds,
      ∃ c ∈ validation_pipeline_commands validationDemoEnv,
        cmdKind validationDemoEnv c = k) := by
  refine ⟨rfl, by decide, ?_, by decide⟩
  intro e c hc
  unfold validation_pipeline_commands at hc
  simp only [List.mem_append] at hc
  rcases hc with ((((h | h) | h) | h) | h) | h
  · simp only [generate_project_commands, List.mem_singleton] at h
    subst h
    simp [cmdKind, validationUsedKinds]
  · simp only [validate_docker_build_commands, List.mem_map] at h
    obtain ⟨ui, -, rfl⟩ := h
    simp [cmdKind, validationUsedKinds]
  · simp only [run_container_tests_commands, List.mem_flatten,
      List.mem_map] at h
    obtain ⟨l, ⟨ui, -, rfl⟩, hcl⟩ := h
    simp only [List.mem_cons, List.not_mem_nil, or_false] at hcl
    rcases hcl with rfl | rfl | rfl | rfl | rfl | rfl <;>
      simp [cmdKind, lifecycleVerbs, validationUsedKinds]
  · unfold run_unit_tests_commands at h
    rcases List.mem_append.mp h with h | h
    · by_cases hb : e.backendExists
      · simp only [hb, if_true, List.mem_singleton] at h
        subst h
        simp [cmdKind, validationUsedKinds]
      · simp [hb] at h
    · by_cases hf : e.frontendExists
      · simp only [hf, if_true, List.mem_singleton] at h
        subst h
        simp [cmdKind, validationUsedKinds]
      · simp [hf] at h
  · simp [generate_report_commands] at h
  · simp only [cleanup_commands, List.mem_append, List.mem_map,
      List.mem_singleton] at h
    rcases h with ((h | h) | h) | h
    · subst h
      simp [cmdKind, lifecycleVerbs, validationUsedKinds]
    · obtain ⟨cn, -, rfl⟩ := h
      simp [cmdKind, lifecycleVerbs, validationUsedKinds]
    · subst h
      simp [cmdKind, lifecycleVerbs, validationUsedKinds]
    · obtain ⟨im, -, rfl⟩ := h
      simp [cmdKind, lifecycleVerbs, validationUsedKinds]

/-- C3 counterexample: the claim additionally lists "docker compose up"
among the command kinds of these steps, but no command of a full
validation-pipeline run is a docker compose command. -/
theorem C3_validation_pipeline_counterexample :
    CmdKind.dockerCompose ∈ claimedCommandKinds ∧
    ¬ ∃ c ∈ validation_pipeline_commands validationDemoEnv,
        cmdKind validationDemoEnv c = CmdKind.dockerCompose := by
  decide

/-- Witness for C3: the command-kind bound applied at the representative
environment and the expect-script invocation. -/
theorem C3_validation_pipeline_steps_witness :
    cmdKind validationDemoEnv ["/tmp/kedro-test-abc123/generate.exp"] ∈
      validationUsedKinds :=
  C3_validation_pipeline_steps.2.2.1 validationDemoEnv
    ["/tmp/kedro-test-abc123/generate.exp"] (by decide)

/-! ### The database-init node is not valid Python -/

/-- CPython tokenizer dedent handling: pop the indentation stack until the
new level matches a stack entry exactly; a level matching no entry is an
IndentationError (`none`). -/
def popTo : List Nat → Nat → Option (List Nat)
  | [], _ => none
  | t :: rest, i =>
    if i = t then some (t :: rest)
    else if i < t then popTo rest i
    else none

/-- Process one logical line's indentation: a larger indent than the top of
the stack pushes, anything else must dedent onto an existing level. -/
def indentStep (stack : List Nat) (i : Nat) : Option (List Nat) :=
  match stack with
  | [] => none
  | t :: rest => if t < i then some (i :: t :: rest) else popTo (t :: rest) i

/-- Whether a sequence of logical-line indentation levels tokenizes. -/
def indentsAccepted (indents : List Nat) : Bool :=
  (indents.foldl (fun st i => st.bind (fun s => indentStep s i)) (some [0])).isSome

/-- The indentation of each logical source line of `create_test_database`
(kedro-pipeline/src/stackwizard_pipeline/nodes/database_init.py, lines
16-68; blank and comment-only lines emit no NEWLINE token, and a
parenthesised multi-line expression is one logical line): `def` at 0, the
docstring and the body statements of lines 17-39 at 4 (with the `if`/`else`
bodies at 8), the `try:` body of lines 41-52 at 8, the inner
`try`/`except` of lines 53-57 at 12/16, then the `try:` on line 60 at 8,
its body on lines 61-66 at 16, and the `except` on line 67 at 12. -/
def create_test_database_indents : List Nat :=
  [0, 4, 4, 8, 4, 8, 4, 4, 4, 4, 4, 4, 4, 4, 4, 8, 8, 8, 8, 12, 16, 16, 12,
   16, 8, 16, 16, 12, 16]

/-- C4 (code bug): the indentation sequence of `create_test_database` is
rejected by the tokenizer — the `except` on line 67 dedents to level 12
while the stack holds 0/4/8/16 — so
`stackwizard_pipeline.nodes.database_init` raises an IndentationError when
imported and the database-initialization dimension of the harness cannot
run at all. -/
theorem C4_database_init_indentation_error :
    indentsAccepted create_test_database_indents = false := by decide

/-! ### The CRUD and admin API surface -/

/-- Authorization dependency a route declares. -/
inductive AuthRequirement
  | activeUser
  | superuser
deriving DecidableEq, Repr

/-- A declared route: HTTP method, full path, auth dependency. -/
structure Route where
  method : String
  path : String
  auth : AuthRequirement
deriving DecidableEq, Repr

/-- The items router (templates/common/backend/app/api/v1/items.py,
prefix "/items"): list, get-by-id, create, update, delete, each with
`Depends(get_current_active_user)`. -/
def items_routes : List Route :=
  [⟨"GET", "/items/", AuthRequirement.activeUser⟩,
   ⟨"GET", "/items/{item_id}", AuthRequirement.activeUser⟩,
   ⟨"POST", "/items/", AuthRequirement.activeUser⟩,
   ⟨"PUT", "/items/{item_id}", AuthRequirement.activeUser⟩,
   ⟨"DELETE", "/items/{item_id}", AuthRequirement.activeUser⟩]

/-- The admin router (templates/common/backend/app/api/v1/admin.py,
prefix "/admin"): every endpoint takes `Depends(get_current_superuser)`. -/
def admin_routes : List Route :=
  [⟨"GET", "/admin/users", AuthRequirement.superuser⟩,
   ⟨"GET", "/admin/users/stats", AuthRequirement.superuser⟩,
   ⟨"GET", "/admin/users/{user_id}", AuthRequirement.superuser⟩,
   ⟨"POST", "/admin/users", AuthRequirement.superuser⟩,
   ⟨"PUT", "/admin/users/{user_id}", AuthRequirement.superuser⟩,
   ⟨"DELETE", "/admin/users/{user_id}", AuthRequirement.superuser⟩,
   ⟨"POST", "/admin/users/{user_id}/activate", AuthRequirement.superuser⟩,
   ⟨"POST", "/admin/users/{user_id}/make-superuser", AuthRequirement.superuser⟩,
   ⟨"POST", "/admin/users/{user_id}/remove-superuser", AuthRequirement.superuser⟩,
   ⟨"POST", "/admin/users/{user_id}/verify-email", AuthRequirement.superuser⟩,
   ⟨"GET", "/admin/stats", AuthRequirement.superuser⟩,
   ⟨"GET", "/admin/recent-registrations", AuthRequirement.superuser⟩,
   ⟨"GET", "/admin/audit-log", AuthRequirement.superuser⟩,
   ⟨"POST", "/admin/users/{user_id}/reset-password", AuthRequirement.superuser⟩,
   ⟨"GET", "/admin/users/export", AuthRequirement.superuser⟩,
   ⟨"POST", "/admin/users/import", AuthRequirement.superuser⟩,
   ⟨"POST", "/admin/users/bulk-activate", AuthRequirement.superuser⟩,
   ⟨"POST", "/admin/users/bulk-deactivate", AuthRequirement.superuser⟩,
   ⟨"GET", "/admin/users/{user_id}/sessions", AuthRequirement.superuser⟩,
   ⟨"DELETE", "/admin/users/{user_id}/sessions", AuthRequirement.superuser⟩]

/-- Embedding of `get_current_active_user`
(templates/common/backend/app/core/dependencies.py, lines 88-99). -/
def get_current_active_user (u : PyUser) : Except HTTPError PyUser :=
  if !u.isActive then
    Except.error { statusCode := 403, detail := "Inactive user" }
  else Except.ok u

/-- Embedding of `get_current_superuser`
(templates/common/backend/app/core/dependencies.py, lines 101-112); it
chains through `get_current_active_user`. -/
def get_current_superuser (u : PyUser) : Except HTTPError PyUser :=
  match get_current_active_user u with
  | Except.error e => Except.error e
  | Except.ok v =>
    if !v.isSuperuser then
      Except.error { statusCode := 403, detail := "Not enough permissions" }
    else Except.ok v

/-- C10: the template exposes item list/get/create/update/delete and admin
list/create/update/delete/activate/promote endpoints; every item endpoint
requires an authenticated active user and every admin endpoint requires a
superuser, and those dependencies admit exactly such callers. -/
theorem C10_crud_admin_surface :
    (⟨"GET", "/items/", AuthRequirement.activeUser⟩ ∈ items_routes ∧
     ⟨"GET", "/items/{item_id}", AuthRequirement.activeUser⟩ ∈ items_routes ∧
     ⟨"POST", "/items/", AuthRequirement.activeUser⟩ ∈ items_routes ∧
     ⟨"PUT", "/items/{item_id}", AuthRequirement.activeUser⟩ ∈ items_routes ∧
     ⟨"DELETE", "/items/{item_id}", AuthRequirement.activeUser⟩ ∈ items_routes) ∧
    (⟨"GET", "/admin/users", AuthRequirement.superuser⟩ ∈ admin_routes ∧
     ⟨"POST", "/admin/users", AuthRequirement.superuser⟩ ∈ admin_routes ∧
     ⟨"PUT", "/admin/users/{user_id}", AuthRequirement.superuser⟩ ∈ admin_routes ∧
     ⟨"DELETE", "/admin/users/{user_id}", AuthRequirement.superuser⟩ ∈ admin_routes ∧
     ⟨"POST", "/admin/users/{user_id}/activate", AuthRequirement.superuser⟩ ∈
       admin_routes ∧
     ⟨"POST", "/admin/users/{user_id}/make-superuser",
       AuthRequirement.superuser⟩ ∈ admin_routes) ∧
    (∀ r ∈ items_routes, r.auth = AuthRequirement.activeUser) ∧
    (∀ r ∈ admin_routes, r.auth = AuthRequirement.superuser) ∧
    (∀ u : PyUser, (get_current_active_user u = Except.ok u ↔
        u.isActive = true) ∧
      (get_current_superuser u = Except.ok u ↔
        (u.isActive = true ∧ u.isSuperuser = true))) := by
  refine ⟨by decide, by decide, by decide, by decide, ?_⟩
  intro u
  unfold get_current_superuser get_current_active_user
  by_cases ha : u.isActive <;> by_cases hs : u.isSuperuser <;>
    simp [ha, hs]

/-- Witness for C7 at a concrete valid password. -/
theorem C7_password_strength_iff_witness :
    (validate_password_strength "Passw0rd".toList).1 = true :=
  (C7_password_strength_iff "Passw0rd".toList).2.mpr (by decide)

/-- Witness for C5 at a concrete one-entry run. -/
theorem C5_report_invariants_witness :
    (generate_validation_report [("backend", { success := true })] []
      []).summary.total_tests = 1 + 0 + 0 :=
  (C5_report_invariants [("backend", { success := true })] [] []).1

/-- Witness for C8 at a concrete id list and operation. -/
theorem C8_bulk_validation_total_witness :
    (∃ l, validate_bulk_operation ["11111111-1111-1111-1111-111111111111"]
        "delete" 100 = Except.ok l ∧ l ≠ [] ∧
        l = (["11111111-1111-1111-1111-111111111111"] : List String).filterMap
          (fun s => (uuidParse s).map uuidToString)) ∨
    (∃ d, validate_bulk_operation ["11111111-1111-1111-1111-111111111111"]
        "delete" 100 = Except.error { statusCode := 400, detail := d }) :=
  C8_bulk_validation_total ["11111111-1111-1111-1111-111111111111"] "delete" 100

/-- Witness for C10: a concrete active superuser passes the admin
dependency. -/
theorem C10_crud_admin_surface_witness :
    get_current_superuser
        { id := 2, email := "root@example.com", hashedPassword := "h",
          isActive := true, isSuperuser := true } =
      Except.ok
        { id := 2, email := "root@example.com", hashedPassword := "h",
          isActive := true, isSuperuser := true } :=
  ((C10_crud_admin_surface.2.2.2.2
      { id := 2, email := "root@example.com", hashedPassword := "h",
        isActive := true, isSuperuser := true }).2).mpr ⟨rfl, rfl⟩

end StackWizard
